import Mathlib

/-!
Verification of the conversational intent-orchestration core of the
AI voice assistant repository.  Each definition below is a shallow
embedding of one function of the source: JavaScript/TypeScript values
are modelled with `Option` (absent = `none`), JS truthiness of strings
and arrays is made explicit, effectful calls (database, OpenAI
completions, Google APIs) are passed in as `Except` outcomes, and
thrown exceptions become `Except.error`.
-/

/-- JS truthiness of a possibly-absent string: `undefined`, `null` and the
empty string are falsy, every other string truthy. -/
def jsTruthyStr (v : Option String) : Bool :=
  match v with
  | none => false
  | some s => s != ""

/-- JS truthiness of a possibly-absent array: every array (including the
empty one) is truthy; only `undefined`/`null` are falsy. -/
def jsTruthyArr (v : Option (List String)) : Bool :=
  v.isSome

/-- JS `v || d` on a possibly-absent string (falls back on absent or empty). -/
def jsOrStr (v : Option String) (d : String) : String :=
  if jsTruthyStr v then v.getD d else d

/-- "Absent or empty" in the sense of the specification's required-parameter
table, for a string parameter. -/
def isBlankStr (v : Option String) : Bool :=
  !(jsTruthyStr v)

/-- "Absent or empty" in the sense of the specification's required-parameter
table, for an array parameter: absent, or present but with no elements. -/
def isBlankArr (v : Option (List String)) : Bool :=
  match v with
  | none => true
  | some xs => xs.isEmpty

/-- JS `Array.prototype.slice(-n)`: the `n` most recent elements. -/
def lastN (n : Nat) (l : List α) : List α :=
  l.drop (l.length - n)

/-- Is `pat` a prefix of the character list? (model of a regex literal match
anchored at the current position). -/
def charsHavePrefix : List Char → List Char → Bool
  | [], _ => true
  | _ :: _, [] => false
  | a :: as, b :: bs => a == b && charsHavePrefix as bs

/-- Does the character list contain `pat` as a contiguous run? -/
def charsHaveSub (pat : List Char) : List Char → Bool
  | [] => pat.isEmpty
  | c :: rest => charsHavePrefix pat (c :: rest) || charsHaveSub pat rest

/-- JS `String.prototype.includes`. -/
def strIncludes (s pat : String) : Bool :=
  charsHaveSub pat.data s.data

/-- Numeric value of a digit run (model of `parseInt` on 1-2 digit captures). -/
def digitsVal (l : List Char) : Nat :=
  l.foldl (fun acc c => acc * 10 + (c.toNat - ('0').toNat)) 0

/-- ASCII lowercase of one character (model of `toLowerCase` on the ASCII
range the parser cares about). -/
def lowerChar (c : Char) : Char :=
  if c.toNat ≥ 65 && c.toNat ≤ 90 then Char.ofNat (c.toNat + 32) else c

/-- JS `String.prototype.toLowerCase`. -/
def jsToLower (s : String) : String :=
  ⟨s.data.map lowerChar⟩

namespace GoogleCalendarService

/-- A JS `Date`, decomposed as a day count since the epoch (1970-01-01,
a Thursday) together with minutes within that day.  `setHours` rollover is
absorbed by allowing `minute ≥ 1440`; the absolute instant is
`day * 1440 + minute` minutes. -/
structure DT where
  day : Int
  minute : Nat
deriving DecidableEq, Repr

/-- Absolute time of a `DT` in minutes since the epoch. -/
def DT.toAbsMinutes (d : DT) : Int :=
  d.day * 1440 + (d.minute : Int)

/-- JS `Date.prototype.getDay` (0 = Sunday); day 0 of the epoch is Thursday. -/
def jsGetDay (day : Int) : Int :=
  (day + 4) % 7

/-- The day-name table of `parseDateTime` (index 0 = sunday). -/
def weekdayNames : List String :=
  ["sunday", "monday", "tuesday", "wednesday", "thursday", "friday", "saturday"]

/-- The result of the regex `/(\d{1,2}):?(\d{2})?\s*(am|pm)?/` applied at the
first digit of the string: hours capture, minutes capture (0 when the
two-digit group is absent), and the optional am/pm capture. -/
def parseTimeAt (l : List Char) : Nat × Nat × Option String :=
  let run := l.takeWhile Char.isDigit
  let hd := run.take 2
  let hours := digitsVal hd
  let after := l.drop hd.length
  let afterColon := if after.head? == some ':' then after.drop 1 else after
  let minDigits := afterColon.take 2
  let hasMin := minDigits.length == 2 && minDigits.all Char.isDigit
  let minutes := if hasMin then digitsVal minDigits else 0
  let afterMin := if hasMin then afterColon.drop 2 else afterColon
  let afterSpace := afterMin.dropWhile (fun ch =>
    ch == ' ' || ch == '\t' || ch == '\n' || ch == '\r')
  let ampm : Option String :=
    if charsHavePrefix ['a', 'm'] afterSpace then some "am"
    else if charsHavePrefix ['p', 'm'] afterSpace then some "pm"
    else none
  (hours, minutes, ampm)

/-- Scan for the first position where the time regex can match (the first
digit); `none` when the string holds no digit, i.e. the regex fails. -/
def extractTimeAux : List Char → Option (Nat × Nat × Option String)
  | [] => none
  | c :: rest =>
    if c.isDigit then some (parseTimeAt (c :: rest))
    else extractTimeAux rest

/-- Model of `lowerStr.match(/(\d{1,2}):?(\d{2})?\s*(am|pm)?/)`. -/
def extractTime (s : String) : Option (Nat × Nat × Option String) :=
  extractTimeAux s.data

/-- An event interval as returned by `parseDateTime`. -/
structure DTRange where
  start : DT
  «end» : DT
deriving DecidableEq, Repr

/-- `GoogleCalendarService.parseDateTime`: resolves the date from the phrases
`tomorrow` / `next week` / a weekday name, then the time of day from the
first digit run (defaulting to 14:00), and always ends one hour after the
start (`endDate = startDate + 60 * 60 * 1000` ms). -/
def parseDateTime (now : DT) (dateTimeString : String) : DTRange :=
  let lowerStr := jsToLower dateTimeString
  let startDay : Int :=
    if strIncludes lowerStr "tomorrow" then now.day + 1
    else if strIncludes lowerStr "next week" then now.day + 7
    else if weekdayNames.any (fun d => strIncludes lowerStr d) then
      let targetDay := weekdayNames.findIdx (fun d => strIncludes lowerStr d)
      now.day + (((targetDay : Int) - jsGetDay now.day + 7) % 7)
    else now.day
  let startMinute : Nat :=
    match extractTime lowerStr with
    | some (h, m, ampm) =>
      let hours :=
        if ampm == some "pm" && h != 12 then h + 12
        else if ampm == some "am" && h == 12 then 0
        else h
      hours * 60 + m
    | none => 14 * 60
  let startDate : DT := { day := startDay, minute := startMinute }
  let endDate : DT := { day := startDay, minute := startMinute + 60 }
  { start := startDate, «end» := endDate }

end GoogleCalendarService

namespace OpenAIService

/-- Role of one conversation message. -/
inductive Role where
  | system
  | user
  | assistant
deriving DecidableEq, Repr

/-- One message of a conversation context. -/
structure Msg where
  role : Role
  content : String
deriving DecidableEq, Repr

/-- The parameter object the intent classifier extracts.  String-schema
fields are `Option String` (absent = `none`); `recipients`/`attendees` are
arrays per the classifier schema and the consuming code
(`validateEmailAddresses` iterates, `attendees.map` maps). -/
structure Params where
  title : Option String
  dateTime : Option String
  duration : Option String
  location : Option String
  description : Option String
  date : Option String
  recipients : Option (List String)
  subject : Option String
  message : Option String
  attendees : Option (List String)
deriving DecidableEq, Repr

/-- The all-absent parameter object `{}`. -/
def Params.empty : Params :=
  { title := none, dateTime := none, duration := none, location := none,
    description := none, date := none, recipients := none, subject := none,
    message := none, attendees := none }

/-- A classified intent. -/
structure Intent where
  action : String
  confidence : ℚ
  parameters : Params
deriving DecidableEq, Repr

/-- The fail-soft classification value `{action: "none", confidence: 0,
parameters: {}}`. -/
def noneIntent : Intent :=
  { action := "none", confidence := 0, parameters := Params.empty }

/-- `OpenAIService.analyzeIntent`: the completion call may throw (`.error`)
and its content may be null (`none`); `JSON.parse(result || default)` is
modelled by the injected `parse` function, with the null/empty-content case
parsing the literal default string, which denotes `noneIntent`.  Any parse
failure is caught by the surrounding `try` and degraded to `noneIntent`. -/
def analyzeIntent (completion : Except Unit (Option String))
    (parse : String → Option Intent) : Intent :=
  match completion with
  | .error _ => noneIntent
  | .ok content =>
    match content with
    | none => noneIntent
    | some s => if s = "" then noneIntent else (parse s).getD noneIntent

/-- `OpenAIService.checkIfNeedsMoreInfo`, with the source's JS truthiness:
`!intent.parameters.x` for string parameters is "absent or empty string",
for the `recipients` array it is "absent" only (arrays are always truthy). -/
def checkIfNeedsMoreInfo (intent : Intent) : Bool :=
  if intent.action = "schedule_event" then
    !(jsTruthyStr intent.parameters.title) || !(jsTruthyStr intent.parameters.dateTime)
  else if intent.action = "check_availability" then
    !(jsTruthyStr intent.parameters.date)
  else if intent.action = "send_email" then
    !(jsTruthyArr intent.parameters.recipients) || !(jsTruthyStr intent.parameters.subject)
  else
    false

/-- The clarification gate as the specification's required-parameter table
words it: a required parameter must be present and non-empty, where an
empty recipients array counts as empty. -/
def needsMoreInfoTable (intent : Intent) : Bool :=
  if intent.action = "schedule_event" then
    isBlankStr intent.parameters.title || isBlankStr intent.parameters.dateTime
  else if intent.action = "check_availability" then
    isBlankStr intent.parameters.date
  else if intent.action = "send_email" then
    isBlankArr intent.parameters.recipients || isBlankStr intent.parameters.subject
  else
    false

/-- The table amended to what the code computes on the `send_email` row:
a present-but-empty recipients array counts as provided. -/
def needsMoreInfoTableAmended (intent : Intent) : Bool :=
  if intent.action = "schedule_event" then
    isBlankStr intent.parameters.title || isBlankStr intent.parameters.dateTime
  else if intent.action = "check_availability" then
    isBlankStr intent.parameters.date
  else if intent.action = "send_email" then
    intent.parameters.recipients.isNone || isBlankStr intent.parameters.subject
  else
    false

/-- The trimming step of `generateResponse` (lines 131-138): when more than
10 messages are stored, keep the first system message (if any) followed by
`slice(-9)`, the 9 most recent messages. -/
def trimContext (messages : List Msg) : List Msg :=
  if messages.length > 10 then
    (match messages.find? (fun m => m.role == Role.system) with
     | some s => [s]
     | none => []) ++ lastN 9 messages
  else
    messages

/-- What `generateResponse` returns: on the error path the `needsMoreInfo`
field is absent (`none`). -/
structure GenResult where
  response : String
  intent : Intent
  needsMoreInfo : Option Bool
deriving DecidableEq, Repr

/-- The apology text of `generateResponse`'s catch block. -/
def apologyResponse : String :=
  "I apologize, but I encountered an error processing your request. Please try again."

/-- `OpenAIService.generateResponse`.  Effect outcomes are inputs: the
classifier completion (with its parse function) and the response completion.
The user message is pushed first; a throwing response completion is caught
and converted to the apology value, leaving the context with the user
message appended and untrimmed; on success the assistant message is pushed
and the context trimmed. -/
def generateResponse (ctx : List Msg) (userInput : String)
    (intentCompletion : Except Unit (Option String))
    (parse : String → Option Intent)
    (respCompletion : Except Unit (Option String)) : GenResult × List Msg :=
  let ctx1 := ctx ++ [{ role := Role.user, content := userInput }]
  let intent := analyzeIntent intentCompletion parse
  match respCompletion with
  | .error _ =>
    ({ response := apologyResponse, intent := noneIntent, needsMoreInfo := none },
     ctx1)
  | .ok content =>
    let assistantResponse :=
      jsOrStr content "I apologize, but I had trouble processing that request."
    let ctx2 := ctx1 ++ [{ role := Role.assistant, content := assistantResponse }]
    let ctx3 := trimContext ctx2
    ({ response := assistantResponse, intent := intent,
       needsMoreInfo := some (checkIfNeedsMoreInfo intent) },
     ctx3)

/-- What `handleFollowUp` returns (`action`/`parameters` absent in the
keep-collecting branch). -/
structure FollowUpResult where
  response : String
  action : Option String
  parameters : Option Params
deriving DecidableEq, Repr

/-- Result of a `handleFollowUp` turn: the returned value, the updated
message list, and the context's `currentTask`/`pendingData` fields after
the turn. -/
structure FollowUpOut where
  result : FollowUpResult
  ctx : List Msg
  currentTask : Option String
  pendingData : Option Params
deriving DecidableEq, Repr

/-- `OpenAIService.handleFollowUp`: in the pending-task branch the task is
completed (cleared, action returned) only when
`intent.confidence > 0.7 && !needsMoreInfo`; otherwise just the response is
returned and the task kept.  Without a pending task the intent's action and
parameters are returned unconditionally. -/
def handleFollowUp (ctx : List Msg) (currentTask : Option String)
    (pendingData : Option Params) (userInput : String)
    (intentCompletion : Except Unit (Option String))
    (parse : String → Option Intent)
    (respCompletion : Except Unit (Option String)) : FollowUpOut :=
  if jsTruthyStr currentTask then
    let r := generateResponse ctx userInput intentCompletion parse respCompletion
    if r.1.intent.confidence > 7/10 ∧ r.1.needsMoreInfo.getD false = false then
      { result := { response := r.1.response, action := some r.1.intent.action,
                    parameters := some r.1.intent.parameters },
        ctx := r.2, currentTask := none, pendingData := none }
    else
      { result := { response := r.1.response, action := none, parameters := none },
        ctx := r.2, currentTask := currentTask, pendingData := pendingData }
  else
    let r := generateResponse ctx userInput intentCompletion parse respCompletion
    { result := { response := r.1.response, action := some r.1.intent.action,
                  parameters := some r.1.intent.parameters },
      ctx := r.2, currentTask := currentTask, pendingData := pendingData }

end OpenAIService

namespace VoiceAssistant

open OpenAIService

/-- The event record handed to `calendarService.createEvent`. -/
structure CalEvent where
  summary : String
  description : String
  startDT : GoogleCalendarService.DT
  endDT : GoogleCalendarService.DT
  attendees : List String
  location : String
deriving DecidableEq, Repr

/-- The value `handleScheduleEvent` resolves with. -/
structure SchedResult where
  success : Bool
  message : String
  event : Option CalEvent
deriving DecidableEq, Repr

/-- Result of a `handleScheduleEvent` call: the resolved value (or the
rethrown exception), the calendar contents afterwards, and whether
`createEvent` was invoked. -/
structure SchedOut where
  result : Except Unit SchedResult
  calendar : List CalEvent
  createCalled : Bool
deriving Repr

/-- `VoiceAssistant.handleScheduleEvent`: missing (falsy) `title` or
`dateTime` short-circuits to `{success: false}` before any calendar call;
otherwise the date is parsed, the event created (external outcome
`createOutcome`; a throw is rethrown by the catch), and, when attendees are
present and non-empty, the invitation email sent (outcome `emailOutcome`,
a throw likewise rethrown). -/
def handleScheduleEvent (now : GoogleCalendarService.DT) (parameters : Params)
    (calendar : List CalEvent) (createOutcome : Except Unit Unit)
    (emailOutcome : Except Unit Unit) : SchedOut :=
  if !(jsTruthyStr parameters.title) || !(jsTruthyStr parameters.dateTime) then
    { result := .ok { success := false,
                      message := "Missing required parameters for scheduling",
                      event := none },
      calendar := calendar, createCalled := false }
  else
    let parsedDateTime :=
      GoogleCalendarService.parseDateTime now (parameters.dateTime.getD "")
    let eventData : CalEvent :=
      { summary := parameters.title.getD "",
        description := parameters.description.getD "",
        startDT := parsedDateTime.start,
        endDT := parsedDateTime.«end»,
        attendees := (parameters.attendees.getD []),
        location := parameters.location.getD "" }
    match createOutcome with
    | .error e => { result := .error e, calendar := calendar, createCalled := true }
    | .ok _ =>
      let calendar1 := calendar ++ [eventData]
      let emailNeeded :=
        match parameters.attendees with
        | some l => decide (l.length > 0)
        | none => false
      if emailNeeded then
        match emailOutcome with
        | .error e => { result := .error e, calendar := calendar1, createCalled := true }
        | .ok _ =>
          { result := .ok { success := true,
                            message := "Event \"" ++ eventData.summary ++
                              "\" scheduled successfully",
                            event := some eventData },
            calendar := calendar1, createCalled := true }
      else
        { result := .ok { success := true,
                          message := "Event \"" ++ eventData.summary ++
                            "\" scheduled successfully",
                          event := some eventData },
          calendar := calendar1, createCalled := true }

/-- Result of a `processTextInput` turn: the resolved value (or the
propagated exception), the conversation context afterwards, and whether
`handleIntent` (the action dispatcher) was invoked. -/
structure TurnOut where
  result : Except Unit GenResult
  ctx : List Msg
  handleIntentCalled : Bool
deriving Repr

/-- `VoiceAssistant.processTextInput`: the per-turn orchestration.  The
database calls (`getOrCreateConversation`, two `addMessage`s) and the
`handleIntent` dispatch are external outcomes; the catch block of the
source logs and RETHROWS (`throw error`), so every one of these errors
propagates to the caller.  `handleIntent` is invoked exactly when
`aiResponse.intent.confidence > 0.7`. -/
def processTextInput (ctx : List Msg) (text : String)
    (dbConv : Except Unit Unit) (dbAddUser : Except Unit Unit)
    (intentCompletion : Except Unit (Option String))
    (parse : String → Option Intent)
    (respCompletion : Except Unit (Option String))
    (dbAddAssistant : Except Unit Unit)
    (handleOutcome : Except Unit Unit) : TurnOut :=
  match dbConv with
  | .error e => { result := .error e, ctx := ctx, handleIntentCalled := false }
  | .ok _ =>
    match dbAddUser with
    | .error e => { result := .error e, ctx := ctx, handleIntentCalled := false }
    | .ok _ =>
      let r := generateResponse ctx text intentCompletion parse respCompletion
      match dbAddAssistant with
      | .error e => { result := .error e, ctx := r.2, handleIntentCalled := false }
      | .ok _ =>
        if r.1.intent.confidence > 7/10 then
          match handleOutcome with
          | .error e => { result := .error e, ctx := r.2, handleIntentCalled := true }
          | .ok _ => { result := .ok r.1, ctx := r.2, handleIntentCalled := true }
        else
          { result := .ok r.1, ctx := r.2, handleIntentCalled := false }

end VoiceAssistant

namespace AuthService

/-- The token fields of the stored user record (the `Principal`). -/
structure AuthUser where
  accessToken : String
  refreshToken : Option String
  tokenExpiry : Int
deriving DecidableEq, Repr

/-- Credentials returned by the Google refresh operation. -/
structure GoogleCreds where
  access_token : String
  refresh_token : Option String
  expiry_date : Int
deriving DecidableEq, Repr

/-- `AuthService.refreshAccessToken`: wraps any provider failure into
`'Failed to refresh access token'`. -/
def refreshAccessToken (outcome : Except Unit GoogleCreds) :
    Except String GoogleCreds :=
  match outcome with
  | .ok c => .ok c
  | .error _ => .error "Failed to refresh access token"

/-- Result of a `getValidAccessToken` call: the returned token (or the
thrown error), the stored user record afterwards, and whether the refresh
capability was invoked. -/
structure TokenOut where
  result : Except String String
  user : Option AuthUser
  refreshCalled : Bool
deriving Repr

/-- `AuthService.getValidAccessToken`.  Times are in milliseconds.  The body
compares `tokenExpiry > now + 5*60*1000`; on the refresh path the mutation
happens only after a successful refresh.  The outer catch of the source
converts EVERY inner error ('User not found', 'No refresh token available',
'Failed to refresh access token') into the single generic
'Failed to get valid access token'. -/
def getValidAccessToken (user : Option AuthUser) (nowMs : Int)
    (refreshOutcome : Except Unit GoogleCreds) : TokenOut :=
  let inner : Except String (String × AuthUser) × Bool :=
    match user with
    | none => (.error "User not found", false)
    | some u =>
      let fiveMinutesFromNow := nowMs + 5 * 60 * 1000
      if u.tokenExpiry > fiveMinutesFromNow then
        (.ok (u.accessToken, u), false)
      else if !(jsTruthyStr u.refreshToken) then
        (.error "No refresh token available", false)
      else
        match refreshAccessToken refreshOutcome with
        | .error e => (.error e, true)
        | .ok newTokens =>
          let u1 := { u with accessToken := newTokens.access_token }
          let u2 :=
            if jsTruthyStr newTokens.refresh_token then
              { u1 with refreshToken := newTokens.refresh_token }
            else u1
          let u3 := { u2 with tokenExpiry := newTokens.expiry_date }
          (.ok (u3.accessToken, u3), true)
  match inner with
  | (.ok (tok, u'), called) =>
    { result := .ok tok, user := some u', refreshCalled := called }
  | (.error _, called) =>
    { result := .error "Failed to get valid access token", user := user,
      refreshCalled := called }

end AuthService

namespace BackendOpenAIService

/-- A function call emitted by the completion. -/
structure FunctionCall where
  name : String
  arguments : String
deriving DecidableEq, Repr

/-- The completion message consumed by the backend `processTextInput`. -/
structure CompletionMsg where
  content : Option String
  function_call : Option FunctionCall
deriving DecidableEq, Repr

/-- The JSON object parsed out of `function_call.arguments` (only its
`type` field is inspected by the orchestration). -/
structure ParsedArgs where
  type : Option String
deriving DecidableEq, Repr

/-- The `ActionIntent` of `openaiService.ts`. -/
structure ActionIntent where
  type : String
  action : String
  parameters : ParsedArgs
  confidence : ℚ
deriving DecidableEq, Repr

/-- The value the backend `processTextInput` resolves with. -/
structure ProcessTextResult where
  response : String
  action : Option ActionIntent
  shouldRefreshData : Bool
deriving DecidableEq, Repr

/-- The refresh-action table of `OpenAIService.shouldRefreshData`. -/
def refreshActions : List String :=
  ["create_calendar_event", "update_calendar_event", "delete_calendar_event",
   "send_email", "mark_email_read"]

/-- `OpenAIService.shouldRefreshData` (backend): membership in the
side-effecting-action list. -/
def shouldRefreshData (actionName : String) : Bool :=
  refreshActions.contains actionName

/-- Flag following the specification's words (§4.5): side-effecting actions
set the refresh flag *on success* — so an unsuccessful turn carries
`false`.  Used only to compare the code against the spec. -/
def shouldRefreshFlagSpec (actionName : String) (succeeded : Bool) : Bool :=
  shouldRefreshData actionName && succeeded

/-- Backend `OpenAIService.processTextInput`: the completion call may throw
and `JSON.parse(functionCall.arguments)` may throw (both are wrapped by the
catch into 'Failed to process text input', modelled `.error ()`).  With a
function call present, the returned action carries confidence 0.9 and
`shouldRefreshData` is computed from the function-call name alone — no
action has been executed at this point. -/
def processTextInput (completion : Except Unit CompletionMsg)
    (parseArgs : String → Option ParsedArgs) : Except Unit ProcessTextResult :=
  match completion with
  | .error _ => .error ()
  | .ok msg =>
    match msg.function_call with
    | some functionCall =>
      match parseArgs functionCall.arguments with
      | none => .error ()
      | some parsedArgs =>
        .ok { response := jsOrStr msg.content "I'll help you with that.",
              action := some { type := jsOrStr parsedArgs.type "general",
                               action := functionCall.name,
                               parameters := parsedArgs,
                               confidence := 9/10 },
              shouldRefreshData := shouldRefreshData functionCall.name }
    | none =>
      .ok { response := jsOrStr msg.content "I'm sorry, I didn't understand that.",
            action := none, shouldRefreshData := false }

end BackendOpenAIService

example :
    (GoogleCalendarService.parseDateTime ⟨0, 600⟩ "tomorrow").start =
      ⟨1, 840⟩ := by decide

example :
    (GoogleCalendarService.parseDateTime ⟨0, 600⟩ "tomorrow at 3pm").start =
      ⟨1, 900⟩ := by decide

example :
    OpenAIService.checkIfNeedsMoreInfo
      { action := "send_email", confidence := 1,
        parameters := { OpenAIService.Params.empty with
                        recipients := some [], subject := some "Status update" } }
      = false := by decide

example :
    OpenAIService.needsMoreInfoTable
      { action := "send_email", confidence := 1,
        parameters := { OpenAIService.Params.empty with
                        recipients := some [], subject := some "Status update" } }
      = true := by decide

/-- C5 counterexample: for the intent
`{action: send_email, parameters: {recipients: [], subject: "Status update"}}`
the recipients list is present but empty — "empty" per the claim's
absent/empty reading — yet `checkIfNeedsMoreInfo` returns `false` (a JS
array is truthy even when empty), while the required-parameter table of the
claim demands `true`. -/
theorem checkIfNeedsMoreInfo_empty_recipients_counterexample :
    OpenAIService.checkIfNeedsMoreInfo
      { action := "send_email", confidence := 1,
        parameters := { OpenAIService.Params.empty with
                        recipients := some [], subject := some "Status update" } }
      = false
    ∧ OpenAIService.needsMoreInfoTable
      { action := "send_email", confidence := 1,
        parameters := { OpenAIService.Params.empty with
                        recipients := some [], subject := some "Status update" } }
      = true := by
  constructor <;> decide

/-- C5 (amended): `checkIfNeedsMoreInfo` is a pure function of the intent
agreeing with the required-parameter table in which string parameters must
be present and non-empty, while `recipients` must merely be present — a
present-but-empty recipients array counts as provided. -/
theorem checkIfNeedsMoreInfo_eq_amended_table :
    ∀ intent : OpenAIService.Intent,
      OpenAIService.checkIfNeedsMoreInfo intent =
        OpenAIService.needsMoreInfoTableAmended intent := by
  intro intent
  simp only [OpenAIService.checkIfNeedsMoreInfo,
    OpenAIService.needsMoreInfoTableAmended, isBlankStr]
  split_ifs <;> try rfl
  cases intent.parameters.recipients <;> simp [jsTruthyArr]

/-- C8: the intent classifier fails soft — a throwing completion call and an
unparsable completion content both yield `{action: "none", confidence: 0,
parameters: {}}` instead of an exception, and `analyzeIntent` is total by
construction. -/
theorem analyzeIntent_fails_soft :
    ∀ (parse : String → Option OpenAIService.Intent) (s : String),
      OpenAIService.analyzeIntent (.error ()) parse = OpenAIService.noneIntent
      ∧ (parse s = none →
          OpenAIService.analyzeIntent (.ok (some s)) parse = OpenAIService.noneIntent) := by
  intro parse s
  constructor
  · rfl
  · intro h
    simp only [OpenAIService.analyzeIntent]
    split_ifs with hs
    · rfl
    · simp [h]

/-- C8 witness: at the concrete content `"not json"` with a parser that
rejects everything, both failure modes return the zero intent. -/
theorem analyzeIntent_fails_soft_witness :
    OpenAIService.analyzeIntent (.error ()) (fun _ => none) = OpenAIService.noneIntent
    ∧ OpenAIService.analyzeIntent (.ok (some "not json")) (fun _ => none) =
        OpenAIService.noneIntent :=
  ⟨(analyzeIntent_fails_soft (fun _ => none) "not json").1,
   (analyzeIntent_fails_soft (fun _ => none) "not json").2 rfl⟩

/-- C10: `parseDateTime` always returns an interval ending exactly 60
minutes after its start (the requested duration is never consulted), and
when the input contains no time expression (the regex finds no digit) the
start time is 14:00 on the resolved date. -/
theorem parseDateTime_duration_and_default :
    ∀ (now : GoogleCalendarService.DT) (s : String),
      (GoogleCalendarService.parseDateTime now s).«end».toAbsMinutes =
        (GoogleCalendarService.parseDateTime now s).start.toAbsMinutes + 60
      ∧ (GoogleCalendarService.extractTime (jsToLower s) = none →
          (GoogleCalendarService.parseDateTime now s).start.minute = 14 * 60) := by
  intro now s
  constructor
  · simp only [GoogleCalendarService.parseDateTime, GoogleCalendarService.DT.toAbsMinutes]
    push_cast
    ring
  · intro h
    simp only [GoogleCalendarService.parseDateTime, h]

/-- C10 witness: `"tomorrow"` contains no digit, so the event runs
14:00-15:00 on the following day. -/
theorem parseDateTime_duration_and_default_witness :
    GoogleCalendarService.extractTime (jsToLower "tomorrow") = none
    ∧ (GoogleCalendarService.parseDateTime ⟨0, 0⟩ "tomorrow").«end».toAbsMinutes =
        (GoogleCalendarService.parseDateTime ⟨0, 0⟩ "tomorrow").start.toAbsMinutes + 60
    ∧ (GoogleCalendarService.parseDateTime ⟨0, 0⟩ "tomorrow").start.minute = 14 * 60 :=
  ⟨by decide, (parseDateTime_duration_and_default ⟨0, 0⟩ "tomorrow").1,
   (parseDateTime_duration_and_default ⟨0, 0⟩ "tomorrow").2 (by decide)⟩

/-- C3: `getValidAccessToken` compares `tokenExpiry` with `now + 5min`.
Strictly above the skew it returns the cached token with no refresh call
and no state change; at or below the skew it never takes the fast path:
with a refresh token stored the refresh capability is invoked, and in every
case it either invokes the refresh capability or throws. -/
theorem getValidAccessToken_skew_window :
    ∀ (u : AuthService.AuthUser) (nowMs : Int)
      (ro : Except Unit AuthService.GoogleCreds),
      (u.tokenExpiry > nowMs + 5 * 60 * 1000 →
        AuthService.getValidAccessToken (some u) nowMs ro =
          { result := .ok u.accessToken, user := some u, refreshCalled := false })
      ∧ (u.tokenExpiry ≤ nowMs + 5 * 60 * 1000 → jsTruthyStr u.refreshToken = true →
          (AuthService.getValidAccessToken (some u) nowMs ro).refreshCalled = true)
      ∧ (u.tokenExpiry ≤ nowMs + 5 * 60 * 1000 →
          (AuthService.getValidAccessToken (some u) nowMs ro).refreshCalled = true
          ∨ (AuthService.getValidAccessToken (some u) nowMs ro).result =
              .error "Failed to get valid access token") := by
  intro u nowMs ro
  refine ⟨fun hfast => ?_, fun hexp htok => ?_, fun hexp => ?_⟩
  · simp only [AuthService.getValidAccessToken, if_pos hfast]
  · simp only [AuthService.getValidAccessToken, if_neg (not_lt.mpr hexp), htok,
      Bool.not_true, if_neg (Bool.false_ne_true)]
    cases ro <;> rfl
  · simp only [AuthService.getValidAccessToken, if_neg (not_lt.mpr hexp)]
    by_cases htok : jsTruthyStr u.refreshToken
    · simp only [htok, Bool.not_true, if_neg (Bool.false_ne_true)]
      cases ro <;> simp [AuthService.refreshAccessToken]
    · simp only [Bool.not_eq_true] at htok
      simp [htok]

/-- C3 witness: with the 5-minute skew, an expiry 10 minutes away returns
the cached token without refreshing, and an expiry 4 minutes away invokes
the refresh capability. -/
theorem getValidAccessToken_skew_window_witness :
    AuthService.getValidAccessToken
        (some { accessToken := "cached", refreshToken := some "rt",
                tokenExpiry := 600000 }) 0
        (.ok { access_token := "fresh", refresh_token := none,
               expiry_date := 3600000 }) =
      { result := .ok "cached",
        user := some { accessToken := "cached", refreshToken := some "rt",
                       tokenExpiry := 600000 },
        refreshCalled := false }
    ∧ (AuthService.getValidAccessToken
        (some { accessToken := "cached", refreshToken := some "rt",
                tokenExpiry := 240000 }) 0
        (.ok { access_token := "fresh", refresh_token := none,
               expiry_date := 3600000 })).refreshCalled = true :=
  ⟨(getValidAccessToken_skew_window
      { accessToken := "cached", refreshToken := some "rt", tokenExpiry := 600000 } 0
      (.ok { access_token := "fresh", refresh_token := none, expiry_date := 3600000 })).1
    (by decide),
   ((getValidAccessToken_skew_window
      { accessToken := "cached", refreshToken := some "rt", tokenExpiry := 240000 } 0
      (.ok { access_token := "fresh", refresh_token := none, expiry_date := 3600000 })).2.1
    (by decide) (by decide))⟩

/-- C4 counterexample: both failure cases of the refresh path — no refresh
token stored, and a throwing refresh capability — surface to the caller as
the SAME generic error `'Failed to get valid access token'`; the distinct
`NoRefreshToken` / `RefreshFailed` kinds are not observable. -/
theorem getValidAccessToken_error_kinds_counterexample :
    (AuthService.getValidAccessToken
        (some { accessToken := "stale1", refreshToken := none, tokenExpiry := 0 }) 0
        (.ok { access_token := "fresh", refresh_token := none,
               expiry_date := 3600000 })).result
      = .error "Failed to get valid access token"
    ∧ (AuthService.getValidAccessToken
        (some { accessToken := "stale2", refreshToken := some "rt", tokenExpiry := 0 }) 0
        (.error ())).result
      = .error "Failed to get valid access token" := by
  constructor <;> rfl

/-- C4 (amended): within the expiry window, a missing refresh token and a
throwing refresh capability both make `getValidAccessToken` throw — the
stale `accessToken` is never returned and the stored record is unchanged —
but both failures carry the same generic error
`'Failed to get valid access token'` (the outer catch of the source
collapses the internal 'No refresh token available' and
'Failed to refresh access token' messages). -/
theorem getValidAccessToken_failure_paths :
    ∀ (u : AuthService.AuthUser) (nowMs : Int)
      (ro : Except Unit AuthService.GoogleCreds),
      u.tokenExpiry ≤ nowMs + 5 * 60 * 1000 →
      (jsTruthyStr u.refreshToken = false →
        AuthService.getValidAccessToken (some u) nowMs ro =
          { result := .error "Failed to get valid access token",
            user := some u, refreshCalled := false })
      ∧ (jsTruthyStr u.refreshToken = true → ro = .error () →
        AuthService.getValidAccessToken (some u) nowMs ro =
          { result := .error "Failed to get valid access token",
            user := some u, refreshCalled := true }) := by
  intro u nowMs ro hexp
  constructor
  · intro htok
    simp only [AuthService.getValidAccessToken, if_neg (not_lt.mpr hexp), htok]
    rfl
  · intro htok hro
    subst hro
    simp only [AuthService.getValidAccessToken, if_neg (not_lt.mpr hexp), htok,
      AuthService.refreshAccessToken]
    rfl

/-- C4 amended witness: concrete expired records for both failure shapes. -/
theorem getValidAccessToken_failure_paths_witness :
    AuthService.getValidAccessToken
        (some { accessToken := "stale1", refreshToken := none, tokenExpiry := 0 }) 0
        (.ok { access_token := "fresh", refresh_token := none,
               expiry_date := 3600000 }) =
      { result := .error "Failed to get valid access token",
        user := some { accessToken := "stale1", refreshToken := none, tokenExpiry := 0 },
        refreshCalled := false }
    ∧ AuthService.getValidAccessToken
        (some { accessToken := "stale2", refreshToken := some "rt", tokenExpiry := 0 }) 0
        (.error ()) =
      { result := .error "Failed to get valid access token",
        user := some { accessToken := "stale2", refreshToken := some "rt",
                       tokenExpiry := 0 },
        refreshCalled := true } :=
  ⟨(getValidAccessToken_failure_paths
      { accessToken := "stale1", refreshToken := none, tokenExpiry := 0 } 0
      (.ok { access_token := "fresh", refresh_token := none, expiry_date := 3600000 })
      (by decide)).1 (by decide),
   (getValidAccessToken_failure_paths
      { accessToken := "stale2", refreshToken := some "rt", tokenExpiry := 0 } 0
      (.error ()) (by decide)).2 (by decide) rfl⟩

/-- C9 counterexample: for a turn classified as `create_calendar_event` the
backend `processTextInput` already returns `shouldRefreshData = true` at
classification time — no action has been executed, so in particular a turn
whose action does not succeed still received `true`, while the
specification's success-conditioned flag demands `false`. -/
theorem shouldRefreshData_before_success_counterexample :
    BackendOpenAIService.processTextInput
        (.ok { content := none,
               function_call := some { name := "create_calendar_event",
                                       arguments := "empty args" } })
        (fun _ => some { type := some "calendar" }) =
      .ok { response := "I'll help you with that.",
            action := some { type := "calendar", action := "create_calendar_event",
                             parameters := { type := some "calendar" },
                             confidence := 9/10 },
            shouldRefreshData := true }
    ∧ BackendOpenAIService.shouldRefreshFlagSpec "create_calendar_event" false
      = false := by
  constructor <;> rfl

/-- C9 (amended): the returned `shouldRefreshData` equals membership of the
classified function-call name in the side-effecting list
`[create_calendar_event, update_calendar_event, delete_calendar_event,
send_email, mark_email_read]`, computed from the name alone at
classification time (independent of any later execution outcome); turns
without a function call return `false`. -/
theorem shouldRefreshData_iff_side_effecting :
    ∀ (msg : BackendOpenAIService.CompletionMsg)
      (parseArgs : String → Option BackendOpenAIService.ParsedArgs),
      (∀ (fc : BackendOpenAIService.FunctionCall)
         (args : BackendOpenAIService.ParsedArgs),
        msg.function_call = some fc → parseArgs fc.arguments = some args →
        (BackendOpenAIService.processTextInput (.ok msg) parseArgs).toOption.map
            (fun r => r.shouldRefreshData) =
          some (BackendOpenAIService.shouldRefreshData fc.name))
      ∧ (∀ n, BackendOpenAIService.shouldRefreshData n = true ↔
          n ∈ BackendOpenAIService.refreshActions)
      ∧ (msg.function_call = none →
          (BackendOpenAIService.processTextInput (.ok msg) parseArgs).toOption.map
              (fun r => r.shouldRefreshData) = some false) := by
  intro msg parseArgs
  refine ⟨fun fc args hfc hargs => ?_, fun n => ?_, fun hnone => ?_⟩
  · simp only [BackendOpenAIService.processTextInput, hfc, hargs, Except.toOption,
      Option.map_some']
  · simp [BackendOpenAIService.shouldRefreshData]
  · simp only [BackendOpenAIService.processTextInput, hnone, Except.toOption,
      Option.map_some']

/-- C9 amended witness: a read-only `get_calendar_events` call returns
`false`, a side-effecting `send_email` call returns `true`, and a turn
without a function call returns `false`. -/
theorem shouldRefreshData_iff_side_effecting_witness :
    ((BackendOpenAIService.processTextInput
        (.ok { content := some "Here you go.",
               function_call := some { name := "get_calendar_events",
                                       arguments := "empty args" } })
        (fun _ => some { type := some "calendar" })).toOption.map
      (fun r => r.shouldRefreshData) =
        some (BackendOpenAIService.shouldRefreshData "get_calendar_events"))
    ∧ BackendOpenAIService.shouldRefreshData "get_calendar_events" = false
    ∧ BackendOpenAIService.shouldRefreshData "send_email" = true
    ∧ ((BackendOpenAIService.processTextInput
        (.ok { content := some "Hello there.", function_call := none })
        (fun _ => some { type := some "calendar" })).toOption.map
      (fun r => r.shouldRefreshData) = some false) :=
  ⟨(shouldRefreshData_iff_side_effecting
      { content := some "Here you go.",
        function_call := some { name := "get_calendar_events", arguments := "empty args" } }
      (fun _ => some { type := some "calendar" })).1
      { name := "get_calendar_events", arguments := "empty args" }
      { type := some "calendar" } rfl rfl,
   by decide, by decide,
   (shouldRefreshData_iff_side_effecting
      { content := some "Hello there.", function_call := none }
      (fun _ => some { type := some "calendar" })).2.2 rfl⟩

/-- C6: for a `schedule_event` intent lacking `title` or lacking `dateTime`,
the clarification gate answers "needs more info" and `handleScheduleEvent`
resolves with `{success: false}` before invoking `createEvent` — the
calendar is unchanged and no create call happens. -/
theorem handleScheduleEvent_missing_params_no_write :
    ∀ (now : GoogleCalendarService.DT) (params : OpenAIService.Params) (conf : ℚ)
      (cal : List VoiceAssistant.CalEvent) (co eo : Except Unit Unit),
      (jsTruthyStr params.title = false ∨ jsTruthyStr params.dateTime = false) →
      OpenAIService.checkIfNeedsMoreInfo
        { action := "schedule_event", confidence := conf, parameters := params } = true
      ∧ VoiceAssistant.handleScheduleEvent now params cal co eo =
          { result := .ok { success := false,
                            message := "Missing required parameters for scheduling",
                            event := none },
            calendar := cal, createCalled := false } := by
  intro now params conf cal co eo h
  have hguard : (!(jsTruthyStr params.title) || !(jsTruthyStr params.dateTime)) = true := by
    rcases h with h | h <;> simp [h]
  constructor
  · simp only [OpenAIService.checkIfNeedsMoreInfo, if_pos]
    exact hguard
  · simp only [VoiceAssistant.handleScheduleEvent, hguard, if_true]

/-- C6 witness: `{dateTime: "tomorrow"}` with no title, at confidence 0.85,
over an empty calendar. -/
theorem handleScheduleEvent_missing_params_no_write_witness :
    OpenAIService.checkIfNeedsMoreInfo
      { action := "schedule_event", confidence := 85/100,
        parameters := { OpenAIService.Params.empty with dateTime := some "tomorrow" } }
      = true
    ∧ VoiceAssistant.handleScheduleEvent ⟨0, 0⟩
        { OpenAIService.Params.empty with dateTime := some "tomorrow" }
        [] (.ok ()) (.ok ()) =
      { result := .ok { success := false,
                        message := "Missing required parameters for scheduling",
                        event := none },
        calendar := [], createCalled := false } :=
  handleScheduleEvent_missing_params_no_write ⟨0, 0⟩
    { OpenAIService.Params.empty with dateTime := some "tomorrow" }
    (85/100) [] (.ok ()) (.ok ()) (Or.inl (by decide))

/-- C7: when more than 10 messages are stored and the single system message
is the first one (as every context built by `getContext` keeps it), trimming
yields exactly the system message followed by the 9 most recent non-system
messages in their original order — 10 messages in all. -/
theorem trimContext_keeps_system :
    ∀ (s : OpenAIService.Msg) (rest : List OpenAIService.Msg),
      s.role = OpenAIService.Role.system →
      (∀ m ∈ rest, m.role ≠ OpenAIService.Role.system) →
      (s :: rest).length > 10 →
      OpenAIService.trimContext (s :: rest) = s :: lastN 9 rest
      ∧ (OpenAIService.trimContext (s :: rest)).length = 10 := by
  intro s rest hs hrest hlen
  have hfind : (s :: rest).find? (fun m => m.role == OpenAIService.Role.system)
      = some s := by
    apply List.find?_cons_of_pos
    simp [hs]
  have hrlen : rest.length ≥ 9 := by
    simp only [List.length_cons] at hlen
    omega
  have hlast : lastN 9 (s :: rest) = lastN 9 rest := by
    simp only [lastN, List.length_cons]
    have heq : rest.length + 1 - 9 = (rest.length - 9) + 1 := by omega
    rw [heq, List.drop_succ_cons]
  have htrim : OpenAIService.trimContext (s :: rest) = s :: lastN 9 rest := by
    simp only [OpenAIService.trimContext, if_pos hlen, hfind, hlast,
      List.singleton_append]
  refine ⟨htrim, ?_⟩
  rw [htrim]
  simp only [List.length_cons, lastN, List.length_drop]
  omega

/-- C7 witness: a context of one system message and 15 later messages trims
to exactly 10 messages with the system message kept in front. -/
theorem trimContext_keeps_system_witness :
    OpenAIService.trimContext
        (⟨OpenAIService.Role.system, "sys"⟩ ::
          List.replicate 15 ⟨OpenAIService.Role.user, "m"⟩) =
      ⟨OpenAIService.Role.system, "sys"⟩ ::
        lastN 9 (List.replicate 15 ⟨OpenAIService.Role.user, "m"⟩)
    ∧ (OpenAIService.trimContext
        (⟨OpenAIService.Role.system, "sys"⟩ ::
          List.replicate 15 ⟨OpenAIService.Role.user, "m"⟩)).length = 10 :=
  trimContext_keeps_system ⟨OpenAIService.Role.system, "sys"⟩
    (List.replicate 15 ⟨OpenAIService.Role.user, "m"⟩) rfl (by decide) (by decide)

/-- C1: when the classified confidence is at or below 0.7 (the comparison in
the source is strictly `> 0.7`), `processTextInput` never invokes
`handleIntent`, and `handleFollowUp` in its pending-task branch returns no
action and keeps the pending task — the turn stays conversational. -/
theorem lowConfidence_no_dispatch :
    ∀ (ctx : List OpenAIService.Msg) (text : String)
      (dbConv dbAddUser : Except Unit Unit)
      (ic : Except Unit (Option String))
      (parse : String → Option OpenAIService.Intent)
      (rc : Except Unit (Option String))
      (dbAddAssistant handleOutcome : Except Unit Unit)
      (task : Option String) (pd : Option OpenAIService.Params),
      (OpenAIService.generateResponse ctx text ic parse rc).1.intent.confidence ≤ 7/10 →
      (VoiceAssistant.processTextInput ctx text dbConv dbAddUser ic parse rc
          dbAddAssistant handleOutcome).handleIntentCalled = false
      ∧ (OpenAIService.handleFollowUp ctx task pd text ic parse rc).currentTask = task
      ∧ (jsTruthyStr task = true →
          (OpenAIService.handleFollowUp ctx task pd text ic parse rc).result.action
            = none) := by
  intro ctx text dbConv dbAddUser ic parse rc dbAddAssistant handleOutcome task pd hconf
  have hnot :
      ¬ ((OpenAIService.generateResponse ctx text ic parse rc).1.intent.confidence
          > 7/10) :=
    not_lt.mpr hconf
  have hnotand :
      ¬ ((OpenAIService.generateResponse ctx text ic parse rc).1.intent.confidence
            > 7/10
          ∧ (OpenAIService.generateResponse ctx text ic parse rc).1.needsMoreInfo.getD
              false = false) :=
    fun hcon => hnot hcon.1
  refine ⟨?_, ?_, ?_⟩
  · cases dbConv with
    | error e => rfl
    | ok _ =>
      cases dbAddUser with
      | error e => rfl
      | ok _ =>
        cases dbAddAssistant with
        | error e => rfl
        | ok _ =>
          simp only [VoiceAssistant.processTextInput, if_neg hnot]
  · by_cases ht : jsTruthyStr task = true
    · simp only [OpenAIService.handleFollowUp, if_pos ht, if_neg hnotand]
    · simp only [OpenAIService.handleFollowUp, if_neg ht]
  · intro ht
    simp only [OpenAIService.handleFollowUp, if_pos ht, if_neg hnotand]

/-- C1 witness: a `schedule_event` classification at confidence exactly 0.7
dispatches nothing and keeps the pending task. -/
theorem lowConfidence_no_dispatch_witness :
    (OpenAIService.generateResponse [] "maybe book something"
        (.ok (some "classifier output"))
        (fun _ => some { action := "schedule_event", confidence := 7/10,
                         parameters := OpenAIService.Params.empty })
        (.ok (some "Could you tell me more?"))).1.intent.confidence ≤ 7/10
    ∧ (VoiceAssistant.processTextInput [] "maybe book something" (.ok ()) (.ok ())
        (.ok (some "classifier output"))
        (fun _ => some { action := "schedule_event", confidence := 7/10,
                         parameters := OpenAIService.Params.empty })
        (.ok (some "Could you tell me more?"))
        (.ok ()) (.ok ())).handleIntentCalled = false
    ∧ (OpenAIService.handleFollowUp [] (some "schedule_event") none
        "maybe book something"
        (.ok (some "classifier output"))
        (fun _ => some { action := "schedule_event", confidence := 7/10,
                         parameters := OpenAIService.Params.empty })
        (.ok (some "Could you tell me more?"))).result.action = none :=
  ⟨le_rfl,
   (lowConfidence_no_dispatch [] "maybe book something" (.ok ()) (.ok ())
      (.ok (some "classifier output"))
      (fun _ => some { action := "schedule_event", confidence := 7/10,
                       parameters := OpenAIService.Params.empty })
      (.ok (some "Could you tell me more?")) (.ok ()) (.ok ())
      (some "schedule_event") none le_rfl).1,
   (lowConfidence_no_dispatch [] "maybe book something" (.ok ()) (.ok ())
      (.ok (some "classifier output"))
      (fun _ => some { action := "schedule_event", confidence := 7/10,
                       parameters := OpenAIService.Params.empty })
      (.ok (some "Could you tell me more?")) (.ok ()) (.ok ())
      (some "schedule_event") none le_rfl).2.2 (by decide)⟩

/-- C2 counterexample: a turn whose intent is classified at confidence 0.9
with complete parameters dispatches `handleIntent`; when that dispatch
throws (here: the calendar capability failing), `processTextInput` rethrows
and the exception escapes to the caller — contradicting the claim that no
exception ever propagates out of the turn handler. -/
theorem processTextInput_rethrows_counterexample :
    (VoiceAssistant.processTextInput [] "schedule a meeting called Sync tomorrow"
        (.ok ()) (.ok ())
        (.ok (some "classifier output"))
        (fun _ => some { action := "schedule_event", confidence := 9/10,
                         parameters := { OpenAIService.Params.empty with
                                         title := some "Sync",
                                         dateTime := some "tomorrow" } })
        (.ok (some "Scheduling it now."))
        (.ok ()) (.error ())).result = .error () := by
  have hconf :
      (OpenAIService.generateResponse [] "schedule a meeting called Sync tomorrow"
        (.ok (some "classifier output"))
        (fun _ => some { action := "schedule_event", confidence := 9/10,
                         parameters := { OpenAIService.Params.empty with
                                         title := some "Sync",
                                         dateTime := some "tomorrow" } })
        (.ok (some "Scheduling it now."))).1.intent.confidence > 7/10 := by
    show (9 : ℚ)/10 > 7/10
    norm_num
  simp only [VoiceAssistant.processTextInput, if_pos hconf]

/-- C2 (amended): failures of the classification and response-generation
calls are caught inside `generateResponse` and converted into the apology
value with the zero intent, never an exception; but exceptions from the
persistence layer and from `handleIntent` are rethrown by
`processTextInput`'s catch and do propagate to its caller. -/
theorem orchestrator_fault_conversion :
    ∀ (ctx : List OpenAIService.Msg) (text : String)
      (ic rc : Except Unit (Option String))
      (parse : String → Option OpenAIService.Intent)
      (dbConv dbAddUser dbAddAssistant handleOutcome : Except Unit Unit),
      ((OpenAIService.generateResponse ctx text ic parse (.error ())).1 =
        { response := OpenAIService.apologyResponse,
          intent := OpenAIService.noneIntent, needsMoreInfo := none })
      ∧ (dbConv = .error () →
          (VoiceAssistant.processTextInput ctx text dbConv dbAddUser ic parse rc
              dbAddAssistant handleOutcome).result = .error ())
      ∧ (dbConv = .ok () → dbAddUser = .ok () → dbAddAssistant = .ok () →
          handleOutcome = .error () →
          (OpenAIService.generateResponse ctx text ic parse rc).1.intent.confidence
            > 7/10 →
          (VoiceAssistant.processTextInput ctx text dbConv dbAddUser ic parse rc
              dbAddAssistant handleOutcome).result = .error ()) := by
  intro ctx text ic rc parse dbConv dbAddUser dbAddAssistant handleOutcome
  refine ⟨rfl, ?_, ?_⟩
  · intro h
    subst h
    rfl
  · intro h1 h2 h3 h4 hconf
    subst h1; subst h2; subst h3; subst h4
    simp only [VoiceAssistant.processTextInput, if_pos hconf]

/-- C2 amended witness: a database failure propagates; a response-completion
failure is converted to the apology value. -/
theorem orchestrator_fault_conversion_witness :
    ((OpenAIService.generateResponse [] "book it" (.ok (some "raw content"))
        (fun _ => none) (.error ())).1 =
      { response := OpenAIService.apologyResponse,
        intent := OpenAIService.noneIntent, needsMoreInfo := none })
    ∧ (VoiceAssistant.processTextInput [] "book it" (.error ()) (.ok ())
        (.ok (some "raw content")) (fun _ => none) (.ok (some "ok")) (.ok ())
        (.ok ())).result = .error () :=
  ⟨(orchestrator_fault_conversion [] "book it" (.ok (some "raw content")) (.error ())
      (fun _ => none) (.error ()) (.ok ()) (.ok ()) (.ok ())).1,
   (orchestrator_fault_conversion [] "book it" (.ok (some "raw content")) (.ok (some "ok"))
      (fun _ => none) (.error ()) (.ok ()) (.ok ()) (.ok ())).2.1 rfl⟩
